import Mathlib

/-!
Shallow embedding of the hydra-express lifecycle module (src/index.js) and
proofs about its configuration validation, startup sequencing, shutdown
coordination, route registration, error handling and accessors.
-/

set_option maxHeartbeats 1000000

namespace HydraExpress

/-- Untyped JavaScript values, as far as the module under study manipulates
them: `undefined`, `null`, booleans, numbers, strings, opaque function
values, and objects as association lists of named fields. -/
inductive JVal where
  | undefined : JVal
  | jnull : JVal
  | jbool : Bool → JVal
  | jnum : Int → JVal
  | jstr : String → JVal
  | jfun : JVal
  | jobj : List (String × JVal) → JVal

/-- True exactly on the JavaScript value `undefined` (the `=== undefined`
test used by validateConfig). -/
def isUndefined : JVal → Bool
  | .undefined => true
  | _ => false

/-- JavaScript truthiness: `undefined`, `null`, `false`, `0` and the empty
string are falsy, everything else is truthy. -/
def truthy : JVal → Bool
  | .undefined => false
  | .jnull => false
  | .jbool b => b
  | .jnum n => !(n == 0)
  | .jstr s => !(s == "")
  | .jfun => true
  | .jobj _ => true

/-- The result of the JavaScript typeof operator. -/
def typeofJ : JVal → String
  | .undefined => "undefined"
  | .jnull => "object"
  | .jbool _ => "boolean"
  | .jnum _ => "number"
  | .jstr _ => "string"
  | .jfun => "function"
  | .jobj _ => "object"

/-- The numeric value of a decimal digit character, if it is one. -/
def charDigit (c : Char) : Option Nat :=
  if '0' ≤ c ∧ c ≤ '9' then some (c.toNat - '0'.toNat) else none

/-- Parse a non-empty run of decimal digits into a number; `none` on any
non-digit. -/
def parseIndex : List Char → Nat → Option Nat
  | [], acc => some acc
  | c :: cs, acc =>
      match charDigit c with
      | some d => parseIndex cs (acc * 10 + d)
      | none => none

/-- The array-index reading of a property key: the number it denotes when
the key is all digits, `none` otherwise. -/
def keyToIndex (k : String) : Option Nat :=
  match k.data with
  | [] => none
  | c :: cs => parseIndex (c :: cs) 0

/-- Property read `v[k]`: on objects a field lookup defaulting to
`undefined`; on strings the `length` property and single-character
numeric-index properties; `undefined` on every other receiver. -/
def getField : JVal → String → JVal
  | .jobj fs, k => (fs.lookup k).getD .undefined
  | .jstr s, k =>
      if k == "length" then .jnum s.length
      else
        match keyToIndex k with
        | some i =>
            match s.data.get? i with
            | some c => .jstr (String.singleton c)
            | none => .undefined
        | none => .undefined
  | _, _ => .undefined

/-- Enumerable own keys, as `Object.keys` returns them: field names of an
object, the character indices of a string, nothing otherwise. -/
def objKeys : JVal → List String
  | .jobj fs => fs.map Prod.fst
  | .jstr s => (List.range s.length).map toString
  | _ => []

/-- Helper for property assignment on an association list: overwrite the
first binding of the key, or append a new binding. -/
def setAssoc : List (String × JVal) → String → JVal → List (String × JVal)
  | [], k, v => [(k, v)]
  | (k', v') :: rest, k, v =>
      if k' == k then (k, v) :: rest else (k', v') :: setAssoc rest k v

/-- Property assignment `o[k] = v` on an object; a no-op on other receivers
(such paths are never reached by the guarded code under study). -/
def setField : JVal → String → JVal → JVal
  | .jobj fs, k, v => .jobj (setAssoc fs k v)
  | o, _, _ => o

/-- JavaScript `a || b`. -/
def jsOr (a b : JVal) : JVal :=
  if truthy a then a else b

/-- Member access for a call, `v.m(...)`: raises a TypeError when the
receiver is `undefined` or `null`. -/
def jsMember (v : JVal) (m : String) : Except String JVal :=
  match v with
  | .undefined => .error "TypeError"
  | .jnull => .error "TypeError"
  | _ => .ok (getField v m)

/-- The fixed required-member schema of validateConfig, exactly as the
source literal: an object-typed `hydra` entry with two string-typed
sub-entries, and a string-typed `registerRoutesCallback` entry. -/
def requiredMembers : List (String × JVal) :=
  [("hydra", .jobj [("serviceName", .jstr ""), ("serviceDescription", .jstr "")]),
   ("registerRoutesCallback", .jstr "")]

/-- validateConfig (src/index.js lines 86-116): walk the required-member
schema; string-typed keys are checked for `=== undefined` directly,
object-typed keys are checked and, when present, expanded to their
sub-keys, pushing dotted paths for the absent ones. The fold over the
key/value pairs of `requiredMembers` mirrors the source's iteration over
`Object.keys(requiredMembers)` with lookups, the keys being distinct. -/
def validateConfig (config : JVal) : List String :=
  requiredMembers.flatMap (fun kv =>
    let key := kv.1
    let t := typeofJ kv.2
    if t == "string" then
      if isUndefined (getField config key) then [key] else []
    else if t == "object" then
      if isUndefined (getField config key) then [key]
      else
        (objKeys kv.2).flatMap (fun key2 =>
          if isUndefined (getField (getField config key) key2) then
            [key ++ "." ++ key2]
          else [])
    else [])

/-- Stated from the spec's words for comparison with `validateConfig`: the
dotted paths of exactly those fields of the fixed required schema that are
absent from the config, in schema order. -/
def specMissingPaths (config : JVal) : List String :=
  (if isUndefined (getField (getField config "hydra") "serviceName") then
     ["hydra.serviceName"] else []) ++
  (if isUndefined (getField (getField config "hydra") "serviceDescription") then
     ["hydra.serviceDescription"] else []) ++
  (if isUndefined (getField config "registerRoutesCallback") then
     ["registerRoutesCallback"] else [])

/-- Observable side effects of _init before and at the hand-off to start:
the generic required-field walk (validateConfig), the subscription to the
discovery client's log events (`hydra.on`), and the invocation of `start`
(whose first action is the discovery-client call `hydra.init`). -/
inductive InitEvent where
  | fieldWalk
  | logSubscription
  | startInvoked
deriving Repr, DecidableEq

/-- Outcome of _init short of the asynchronous start sequence: either the
returned promise is rejected with a message, or control proceeds into
`start` carrying the (mutated) config. -/
inductive InitStep where
  | rejected (msg : String)
  | proceeded (config : JVal)

/-- Rejection message for a config whose `hydra` block is missing. -/
def hydraBlockMsg : String := "Config missing hydra block"

/-- Rejection message for a config whose `hydra.redis` block is missing. -/
def redisBlockMsg : String := "Config missing redis block"

/-- Aggregated rejection message for missing required fields. -/
def missingFieldsMsg (missingFields : List String) : String :=
  "Config missing fields: " ++ String.intercalate " " missingFields

/-- The in-place defaulting _init performs before validating:
`config.hydra.serviceIP = config.hydra.serviceIP || ''` and likewise for
servicePort (`|| 0`) and serviceType (`|| ''`). -/
def setHydraDefaults (config : JVal) : JVal :=
  let h := getField config "hydra"
  let h := setField h "serviceIP" (jsOr (getField h "serviceIP") (.jstr ""))
  let h := setField h "servicePort" (jsOr (getField h "servicePort") (.jnum 0))
  let h := setField h "serviceType" (jsOr (getField h "serviceType") (.jstr ""))
  setField config "hydra" h

/-- The config mutations of _init's success branch:
`config.hydra.serviceVersion = config.version` and the environment
default. -/
def finalizeConfig (config : JVal) : JVal :=
  let h := setField (getField config "hydra") "serviceVersion" (getField config "version")
  let config := setField config "hydra" h
  setField config "environment" (jsOr (getField config "environment") (.jstr "development"))

/-- _init (src/index.js lines 126-173): reject when the `hydra` block is
falsy; then when `hydra.redis` is falsy; then default serviceIP, servicePort
and serviceType; then run the generic field walk and reject with the
aggregated message when it reports missing fields; then reject when
`registerRoutesCallback` is falsy; otherwise subscribe to the discovery
client's log events and invoke start. The event list records which of
those side effects happened before the function's outcome. -/
def _init (config : JVal) : InitStep × List InitEvent :=
  if !(truthy (getField config "hydra")) then
    (.rejected hydraBlockMsg, [])
  else if !(truthy (getField (getField config "hydra") "redis")) then
    (.rejected redisBlockMsg, [])
  else
    let config := setHydraDefaults config
    let missingFields := validateConfig config
    if missingFields.length ≠ 0 then
      (.rejected (missingFieldsMsg missingFields), [.fieldWalk])
    else if !(truthy (getField config "registerRoutesCallback")) then
      (.rejected "Config missing registerRoutesCallback parameter", [.fieldWalk])
    else
      (.proceeded (finalizeConfig config), [.fieldWalk, .logSubscription, .startInvoked])

/-- State of a single-assignment future (a Q deferred or the executor pair
of a Promise): pending, resolved with a value, or rejected with an error. -/
inductive DeferredState (E V : Type) where
  | pending
  | resolvedWith (v : V)
  | rejectedWith (e : E)
deriving DecidableEq, Repr

/-- A deferred together with a count of its effective transitions, to state
the exactly-once settlement properties. -/
structure Deferred (E V : Type) where
  state : DeferredState E V
  transitions : Nat
deriving DecidableEq, Repr

/-- Freshly constructed deferred, as in `Q.defer()`. -/
def newDeferred (E V : Type) : Deferred E V :=
  { state := .pending, transitions := 0 }

/-- Resolving a deferred: a transition only from the pending state; a no-op
once settled (Q deferreds are single-assignment). -/
def resolveD (d : Deferred E V) (v : V) : Deferred E V :=
  match d.state with
  | .pending => { state := .resolvedWith v, transitions := d.transitions + 1 }
  | _ => d

/-- Rejecting a deferred: a transition only from the pending state; a no-op
once settled. -/
def rejectD (d : Deferred E V) (e : E) : Deferred E V :=
  match d.state with
  | .pending => { state := .rejectedWith e, transitions := d.transitions + 1 }
  | _ => d

/-- The service descriptor returned by the discovery client's
registerService. -/
structure ServiceInfo where
  serviceName : String
  instanceID : String
deriving DecidableEq, Repr

/-- Outcomes of the asynchronous collaborator calls made by one run of
start, in the order the promise chain awaits them: `hydra.init`, the
plugins' setConfig calls (registration order), `hydra.registerService`,
the synchronous pipeline and listener construction performed by
initService after it installs the cleanup handler, and the plugins'
onServiceReady calls (registration order). -/
structure StartEnv where
  hydraInit : Except String JVal
  pluginSetConfig : List (Except String Unit)
  registerService : Except String ServiceInfo
  pipelineBuild : Except String Unit
  pluginOnReady : List (Except String Unit)

/-- The rejection reason of `Q.all` over a list of settled outcomes: the
first error in order, if any. -/
def firstErr : List (Except String Unit) → Option String
  | [] => none
  | .error e :: _ => some e
  | .ok _ :: rest => firstErr rest

/-- Observable result of one run of start: the settlement of the promise
returned by _init (start's resolve/reject arguments), the state of the
`ready` deferred, whether the process-wide `cleanup` event was emitted,
whether initService had installed the `cleanup` handler by then, and
whether the shutdown drain sequence actually ran as a consequence. -/
structure StartResult where
  initPromise : DeferredState String ServiceInfo
  ready : Deferred String (Option ServiceInfo)
  cleanupEmitted : Bool
  cleanupHandlerInstalled : Bool
  shutdownRan : Bool
deriving DecidableEq, Repr

/-- The shared failure continuation of start's catch clause:
`this.ready.reject(err); process.emit('cleanup'); reject(err)`. Emitting
`cleanup` runs the drain sequence exactly when initService has already
installed the handler (`process.on('cleanup', ...)` is registered inside
initService, so earlier failures find no listener). -/
def startFailure (e : String) (handlerInstalled : Bool) : StartResult :=
  { initPromise := .rejectedWith e
    ready := rejectD (newDeferred String (Option ServiceInfo)) e
    cleanupEmitted := true
    cleanupHandlerInstalled := handlerInstalled
    shutdownRan := handlerInstalled }

/-- start (src/index.js lines 286-316): await `hydra.init`, propagate the
config to every plugin and await all, await `hydra.registerService`, run
initService (which installs the cleanup handler and then builds the
pipeline and listener), notify every plugin via onServiceReady and await
all; on success call `resolve(serviceInfo)` and `this.ready.resolve()` —
note: resolved with no value; on the first failure run the catch clause. -/
def start (env : StartEnv) : StartResult :=
  match env.hydraInit with
  | .error e => startFailure e false
  | .ok _ =>
    match firstErr env.pluginSetConfig with
    | some e => startFailure e false
    | none =>
      match env.registerService with
      | .error e => startFailure e false
      | .ok serviceInfo =>
        match env.pipelineBuild with
        | .error e => startFailure e true
        | .ok _ =>
          match firstErr env.pluginOnReady with
          | some e => startFailure e true
          | none =>
            { initPromise := .resolvedWith serviceInfo
              ready := resolveD (newDeferred String (Option ServiceInfo)) none
              cleanupEmitted := false
              cleanupHandlerInstalled := true
              shutdownRan := false }

/-- The first error of a start run in phase order, if any; `none` exactly
when every phase succeeds. -/
def startFirstFailure (env : StartEnv) : Option String :=
  match env.hydraInit with
  | .error e => some e
  | .ok _ =>
    match firstErr env.pluginSetConfig with
    | some e => some e
    | none =>
      match env.registerService with
      | .error e => some e
      | .ok _ =>
        match env.pipelineBuild with
        | .error e => some e
        | .ok _ => firstErr env.pluginOnReady

/-- State of the shutdown coordinator armed by initService: the one-shot
`cleanupDone` flag of the closure around the `cleanup` handler, and
counters of the observable effects — drain grace waits begun, listener
close calls, shutdown log notices, discovery-client deregistrations
(`hydra.shutdown`), and armed 30-second force-exit timers. -/
structure CoordState where
  cleanupDone : Bool
  drains : Nat
  closes : Nat
  shutdownNotices : Nat
  deregisters : Nat
  forceExitTimers : Nat
deriving DecidableEq, Repr

/-- The effects of one _shutdown call on a live listener (src/index.js
lines 180-197): one 1-second drain wait, one `server.close`, one shutdown
log notice, one `hydra.shutdown` deregistration. -/
def shutdownSequence (st : CoordState) : CoordState :=
  { st with
      drains := st.drains + 1
      closes := st.closes + 1
      shutdownNotices := st.shutdownNotices + 1
      deregisters := st.deregisters + 1 }

/-- The `cleanup` handler installed by initService (src/index.js lines
342-352): if the one-shot flag is set, do nothing; otherwise set it, run
_shutdown, and arm the 30-second force-exit safety timer. -/
def cleanupHandler (st : CoordState) : CoordState :=
  if st.cleanupDone then st
  else
    shutdownSequence
      { st with cleanupDone := true, forceExitTimers := st.forceExitTimers + 1 }

/-- A concrete route inside a router layer: its methods object's keys (as
the routing library stores them) and its leaf path. -/
structure RouteInfo where
  methods : List String
  path : String
deriving DecidableEq, Repr

/-- One entry of a router's stack: `route` is absent (undefined) for
router-level middleware layers. -/
structure Layer where
  route : Option RouteInfo
deriving DecidableEq, Repr

/-- A sub-router, reduced to the stack the code walks. -/
structure Router where
  stack : List Layer
deriving DecidableEq, Repr

/-- The flat route list _registerRoutes derives from a dict of
routeBase/router pairs: for every stack entry that has a concrete route,
one `[method]routePath ++ leafPath` string per key of its methods object,
interpolating the method name unchanged; entries with no route are
skipped. -/
def routesListOf (routes : List (String × Router)) : List String :=
  routes.flatMap (fun rp =>
    rp.2.stack.flatMap (fun layer =>
      match layer.route with
      | none => []
      | some routeInfo =>
          routeInfo.methods.map (fun method =>
            "[" ++ method ++ "]" ++ rp.1 ++ routeInfo.path)))

/-- _registerRoutes (src/index.js lines 472-488) on its documented input, a
dict of routeBase/router pairs: returns the flat list submitted to
`hydra.registerRoutes` and the base paths mounted via `app.use`, in
order. -/
def _registerRoutes (routes : List (String × Router)) : List String × List String :=
  (routesListOf routes, routes.map Prod.fst)

/-- Outcome of a dynamically-typed run of _registerRoutes: an exception
thrown, or completion with the submitted flat list and the mounted base
paths. -/
inductive JSOutcome where
  | thrown (msg : String)
  | completed (routesList : List String) (mountedAt : List String)
deriving DecidableEq, Repr

/-- _registerRoutes when its single `routes` parameter is bound to a
string: `Object.keys` enumerates the character indices; on the first index
`routes[k]` is a one-character string, its `stack` property is undefined,
and invoking `forEach` on it raises a TypeError that propagates before any
mount or submission; a keyless (empty) string completes with the empty
list submitted and nothing mounted. -/
def _registerRoutesOnString (base : String) : JSOutcome :=
  match objKeys (.jstr base) with
  | [] => .completed [] []
  | k :: _ =>
      match jsMember (getField (getField (.jstr base) k) "stack") "forEach" with
      | .error e => .thrown e
      | .ok _ => .completed [] []

/-- The public registerRoutes (src/index.js lines 622-624):
`super._registerRoutes(routeBaseUrl, api)`. _registerRoutes declares a
single parameter, so the base-url string is bound to `routes` and the
router argument is discarded. -/
def registerRoutes (routeBaseUrl : String) (_api : Router) : JSOutcome :=
  _registerRoutesOnString routeBaseUrl

/-- The not-found status code of the external ServerResponse helper, fixed
by the spec's `{code: 404}` boundary case. -/
def HTTP_NOT_FOUND : Nat := 404

/-- The internal-server-error status code of the external ServerResponse
helper, fixed by the spec's `{code: 500}` boundary case. -/
def HTTP_SERVER_ERROR : Nat := 500

/-- An error reaching the terminal error-handler middleware: its optional
numeric `status` field (none models an absent field) plus the name and
stack the handler may log. -/
structure ErrObj where
  status : Option Nat
  name : String
  stack : String

/-- What the terminal error handler sends and logs: the HTTP status, the
named numeric fields of the JSON body, and whether a fatal log entry was
written. -/
structure HandledError where
  httpStatus : Nat
  bodyFields : List (String × Nat)
  loggedFatal : Bool
deriving DecidableEq, Repr

/-- The terminal error-handler middleware (src/index.js lines 449-461):
`errCode = err.status || 500` (a present-but-zero status is falsy), log as
fatal unless the status strictly equals the not-found code, and respond
with status errCode and body `{code: errCode}` only. -/
def errorHandler (err : ErrObj) : HandledError :=
  let errCode :=
    match err.status with
    | some n => if n = 0 then HTTP_SERVER_ERROR else n
    | none => HTTP_SERVER_ERROR
  { httpStatus := errCode
    bodyFields := [("code", errCode)]
    loggedFatal := !(err.status == some HTTP_NOT_FOUND) }

/-- The nested hydra block of a captured configuration, for the heap model
of getRuntimeConfig. -/
structure HydraBlock where
  serviceName : String
  serviceDescription : String
deriving DecidableEq, Repr

instance : Inhabited HydraBlock := ⟨⟨"", ""⟩⟩

/-- The own fields of a top-level configuration object: a representative
scalar field and the reference to its nested hydra block. -/
structure ConfigFields where
  version : String
  hydraRef : Nat
deriving DecidableEq, Repr

instance : Inhabited ConfigFields := ⟨⟨"", 0⟩⟩

/-- A heap of configuration objects and hydra blocks; addresses are list
indices. -/
structure ConfigHeap where
  configs : List ConfigFields
  hydras : List HydraBlock
deriving DecidableEq, Repr

/-- Heap read with a default, the shape of every dereference below. -/
def heapGet (l : List α) (i : Nat) (d : α) : α :=
  (l.get? i).getD d

/-- getRuntimeConfig (src/index.js lines 232-234):
`Object.assign({}, this.config)` allocates a fresh top-level object whose
own fields are copied from the live config — including the reference to
the nested hydra block, which is shared, not cloned. Returns the heap with
the fresh object and its address. -/
def getRuntimeConfig (h : ConfigHeap) (liveAddr : Nat) : ConfigHeap × Nat :=
  let fields := heapGet h.configs liveAddr default
  ({ h with configs := h.configs ++ [fields] }, h.configs.length)

/-- A caller's mutation of a top-level field of the object at `addr`:
`obj.version = v`. -/
def setVersionAt (h : ConfigHeap) (addr : Nat) (v : String) : ConfigHeap :=
  { h with
      configs := h.configs.set addr
        { heapGet h.configs addr default with version := v } }

/-- A caller's mutation of the nested block through the object at `addr`:
`obj.hydra.serviceName = v` writes through the shared reference. -/
def setHydraNameThrough (h : ConfigHeap) (addr : Nat) (v : String) : ConfigHeap :=
  let hr := (heapGet h.configs addr default).hydraRef
  { h with
      hydras := h.hydras.set hr
        { heapGet h.hydras hr default with serviceName := v } }

/-- The version field the lifecycle reads off the object at `addr`. -/
def readVersion (h : ConfigHeap) (addr : Nat) : String :=
  (heapGet h.configs addr default).version

/-- The nested serviceName the lifecycle reads through the object at
`addr`. -/
def readHydraName (h : ConfigHeap) (addr : Nat) : String :=
  (heapGet h.hydras (heapGet h.configs addr default).hydraRef default).serviceName

/-- The module-level bindings of src/index.js: its require constants, the
module-local lets, and the two class declarations. The lodash-style
iteration helper `_` used by `use` is not among them. -/
def moduleScope : List String :=
  ["debug", "Q", "hydra", "Utils", "ServerResponse", "serverResponse",
   "bodyParser", "cors", "express", "helmet", "http", "path", "app",
   "defaultLogger", "HydraExpress", "IHydraExpress"]

/-- Identifier resolution against the module scope; in strict mode an
unresolved identifier raises a ReferenceError at its first evaluation. -/
def resolveIdentifier (name : String) : Option String :=
  if moduleScope.contains name then some name else none

/-- An opaque plugin value, identified by a number. -/
structure PluginModel where
  pid : Nat
deriving DecidableEq, Repr

/-- Outcome of a call to `use`. -/
inductive UseOutcome where
  | refError (name : String)
  | registered
deriving DecidableEq, Repr

/-- use (src/index.js lines 62-66): the body's first evaluation is the
identifier `_` of `_.each(plugins, ...)`; since `_` is not bound in the
module scope, a ReferenceError is raised before any callback runs, so
_registerPlugin is never reached. The returned pair carries the outcome
and the final registeredPlugins list; the intended path would append every
argument in order via `this.registeredPlugins.push(plugin)`. -/
def use (registeredPlugins : List PluginModel) (plugins : List PluginModel) :
    UseOutcome × List PluginModel :=
  match resolveIdentifier "_" with
  | none => (.refError "_", registeredPlugins)
  | some _ => (.registered, registeredPlugins ++ plugins)

/-- Settlement of the promise _shutdown returns. -/
inductive PromiseState where
  | pending
  | resolvedOk
  | rejectedErr (e : String)
deriving DecidableEq, Repr

/-- A live HTTP listener handle. -/
structure ServerHandle where
  port : Nat
deriving DecidableEq, Repr

/-- Observable result of one _shutdown call, seen after the 1-second timer
has fired: the state of the returned promise, any exception thrown outside
the promise's control flow (inside the timer callback), and the counts of
close and deregistration calls made. -/
structure ShutdownRun where
  promiseState : PromiseState
  uncaughtException : Option String
  closeCalls : Nat
  deregisterCalls : Nat
deriving DecidableEq, Repr

/-- _shutdown (src/index.js lines 180-197) once the 1-second drain timer
fires: with `this.server` null, `this.server.close` raises a TypeError
inside the timer callback — outside the promise executor's control flow —
so neither resolve nor reject ever runs; with a live server the close
callback logs, then `hydra.shutdown()` settles the promise with its own
result. -/
def _shutdownRun (server : Option ServerHandle) (hydraShutdown : Except String Unit) :
    ShutdownRun :=
  match server with
  | none =>
      { promiseState := .pending
        uncaughtException := some "TypeError"
        closeCalls := 0
        deregisterCalls := 0 }
  | some _ =>
      match hydraShutdown with
      | .ok _ =>
          { promiseState := .resolvedOk
            uncaughtException := none
            closeCalls := 1
            deregisterCalls := 1 }
      | .error e =>
          { promiseState := .rejectedErr e
            uncaughtException := none
            closeCalls := 1
            deregisterCalls := 1 }

/-- Sample service descriptor for concrete runs. -/
def siSample : ServiceInfo := ⟨"svc", "a1"⟩

/-- A start environment in which every phase succeeds. -/
def envAllOk : StartEnv :=
  { hydraInit := .ok (.jobj [])
    pluginSetConfig := [.ok ()]
    registerService := .ok siSample
    pipelineBuild := .ok ()
    pluginOnReady := [.ok ()] }

/-- A start environment whose plugin config-propagation phase fails. -/
def envPluginConfigFail : StartEnv :=
  { hydraInit := .ok (.jobj [])
    pluginSetConfig := [.error "plugin config failed"]
    registerService := .ok siSample
    pipelineBuild := .ok ()
    pluginOnReady := [] }

/-- A start environment whose plugin ready-notification phase fails. -/
def envOnReadyFail : StartEnv :=
  { hydraInit := .ok (.jobj [])
    pluginSetConfig := []
    registerService := .ok siSample
    pipelineBuild := .ok ()
    pluginOnReady := [.error "plugin ready failed"] }

/-- C1 counterexample: on a fully successful startup run the promise
returned by init resolves with the registered service descriptor, but the
ready deferred is resolved with no value (`this.ready.resolve()` passes no
argument), so the claim's clause that the ready signal is resolved with
the registered service descriptor is false. -/
theorem c1_counterexample :
    (start envAllOk).initPromise = .resolvedWith siSample ∧
    (start envAllOk).ready.state = .resolvedWith none ∧
    (start envAllOk).ready.state ≠ .resolvedWith (some siSample) := by
  refine ⟨rfl, rfl, ?_⟩
  decide

/-- C1 (amended): on a fully successful startup run the init promise
resolves exactly once with the registered service descriptor while the
ready deferred is resolved exactly once with no value; on the first fatal
startup error both are rejected exactly once with that error; and no
transition of a settled deferred is observable afterwards. -/
theorem c1_ready_settlement (env : StartEnv) :
    (∀ cfg serviceInfo,
        env.hydraInit = .ok cfg →
        firstErr env.pluginSetConfig = none →
        env.registerService = .ok serviceInfo →
        env.pipelineBuild = .ok () →
        firstErr env.pluginOnReady = none →
        (start env).initPromise = .resolvedWith serviceInfo ∧
        (start env).ready.state = .resolvedWith none ∧
        (start env).ready.transitions = 1) ∧
    (∀ e, startFirstFailure env = some e →
        (start env).initPromise = .rejectedWith e ∧
        (start env).ready.state = .rejectedWith e ∧
        (start env).ready.transitions = 1) ∧
    (∀ d : Deferred String (Option ServiceInfo), d.state ≠ .pending →
        (∀ v, resolveD d v = d) ∧ (∀ e, rejectD d e = d)) := by
  obtain ⟨hi, psc, rs, pb, pr⟩ := env
  refine ⟨?_, ?_, ?_⟩
  · intro cfg serviceInfo h1 h2 h3 h4 h5
    subst h1; subst h3; subst h4
    simp [start, h2, h5, resolveD, newDeferred]
  · intro e he
    cases hi with
    | error e' =>
        simp only [startFirstFailure] at he
        cases he
        exact ⟨rfl, rfl, rfl⟩
    | ok cfg =>
        cases h2 : firstErr psc with
        | some e' =>
            simp only [startFirstFailure, h2] at he
            cases he
            simp only [start, h2]
            exact ⟨rfl, rfl, rfl⟩
        | none =>
            cases rs with
            | error e' =>
                simp only [startFirstFailure, h2] at he
                cases he
                simp only [start, h2]
                exact ⟨rfl, rfl, rfl⟩
            | ok serviceInfo =>
                cases pb with
                | error e' =>
                    simp only [startFirstFailure, h2] at he
                    cases he
                    simp only [start, h2]
                    exact ⟨rfl, rfl, rfl⟩
                | ok u =>
                    cases u
                    simp only [startFirstFailure, h2] at he
                    simp only [start, h2, he]
                    exact ⟨rfl, rfl, rfl⟩
  · intro d hd
    obtain ⟨ds, n⟩ := d
    cases ds with
    | pending => exact absurd rfl hd
    | resolvedWith v => exact ⟨fun _ => rfl, fun _ => rfl⟩
    | rejectedWith e => exact ⟨fun _ => rfl, fun _ => rfl⟩

/-- C1 witness: the successful-run clause instantiated on a concrete
environment. -/
theorem c1_ready_settlement_witness :
    (start envAllOk).initPromise = .resolvedWith siSample ∧
    (start envAllOk).ready.state = .resolvedWith none ∧
    (start envAllOk).ready.transitions = 1 :=
  (c1_ready_settlement envAllOk).1 (.jobj []) siSample rfl rfl rfl rfl rfl

/-- C4 counterexample: when the plugin config-propagation phase fails, the
ready signal is rejected and the termination event is emitted, but no
cleanup handler has been installed yet (initService has not run), so the
drain/close/deregister sequence of the shutdown coordinator does not run —
refuting the claim's clause that it actually runs. -/
theorem c4_counterexample :
    (start envPluginConfigFail).ready.state = .rejectedWith "plugin config failed" ∧
    (start envPluginConfigFail).cleanupEmitted = true ∧
    (start envPluginConfigFail).cleanupHandlerInstalled = false ∧
    (start envPluginConfigFail).shutdownRan = false :=
  ⟨rfl, rfl, rfl, rfl⟩

/-- C4 (amended): for every startup failure after discovery-client
initialization the ready signal is rejected with the error and the
process-wide termination event is emitted; the installed cleanup handler
runs its drain sequence exactly when the failure occurs at or after
pipeline construction (which installs the handler): it does not run for
plugin config-propagation or service-registration failures, and does run
for pipeline-construction and plugin ready-notification failures. -/
theorem c4_failure_termination (env : StartEnv) :
    (∀ cfg e, env.hydraInit = .ok cfg → firstErr env.pluginSetConfig = some e →
        (start env).ready.state = .rejectedWith e ∧
        (start env).cleanupEmitted = true ∧
        (start env).shutdownRan = false) ∧
    (∀ cfg e, env.hydraInit = .ok cfg → firstErr env.pluginSetConfig = none →
        env.registerService = .error e →
        (start env).ready.state = .rejectedWith e ∧
        (start env).cleanupEmitted = true ∧
        (start env).shutdownRan = false) ∧
    (∀ cfg serviceInfo e, env.hydraInit = .ok cfg →
        firstErr env.pluginSetConfig = none →
        env.registerService = .ok serviceInfo → env.pipelineBuild = .error e →
        (start env).ready.state = .rejectedWith e ∧
        (start env).cleanupEmitted = true ∧
        (start env).shutdownRan = true) ∧
    (∀ cfg serviceInfo e, env.hydraInit = .ok cfg →
        firstErr env.pluginSetConfig = none →
        env.registerService = .ok serviceInfo → env.pipelineBuild = .ok () →
        firstErr env.pluginOnReady = some e →
        (start env).ready.state = .rejectedWith e ∧
        (start env).cleanupEmitted = true ∧
        (start env).shutdownRan = true) ∧
    (∀ e handlerInstalled,
        (startFailure e handlerInstalled).shutdownRan = handlerInstalled) := by
  obtain ⟨hi, psc, rs, pb, pr⟩ := env
  refine ⟨?_, ?_, ?_, ?_, ?_⟩
  · intro cfg e h1 h2
    subst h1
    simp only [start, h2]
    exact ⟨rfl, rfl, rfl⟩
  · intro cfg e h1 h2 h3
    subst h1; subst h3
    simp only [start, h2]
    exact ⟨rfl, rfl, rfl⟩
  · intro cfg serviceInfo e h1 h2 h3 h4
    subst h1; subst h3; subst h4
    simp only [start, h2]
    exact ⟨rfl, rfl, rfl⟩
  · intro cfg serviceInfo e h1 h2 h3 h4 h5
    subst h1; subst h3; subst h4
    simp only [start, h2, h5]
    exact ⟨rfl, rfl, rfl⟩
  · intro e handlerInstalled
    rfl

/-- C4 witness: the ready-notification clause instantiated on a concrete
environment, where the coordinator does run. -/
theorem c4_failure_termination_witness :
    (start envOnReadyFail).ready.state = .rejectedWith "plugin ready failed" ∧
    (start envOnReadyFail).cleanupEmitted = true ∧
    (start envOnReadyFail).shutdownRan = true :=
  (c4_failure_termination envOnReadyFail).2.2.2.1 (.jobj []) siSample
    "plugin ready failed" rfl rfl rfl rfl rfl

/-- C6: from any armed coordinator state (one-shot flag clear), raising the
termination signal twice triggers exactly one drain wait, one listener
close, one shutdown log notice and one deregistration; the second signal
is a no-op. -/
theorem c6_cleanup_idempotent (st : CoordState) (h : st.cleanupDone = false) :
    cleanupHandler (cleanupHandler st) = cleanupHandler st ∧
    (cleanupHandler (cleanupHandler st)).drains = st.drains + 1 ∧
    (cleanupHandler (cleanupHandler st)).closes = st.closes + 1 ∧
    (cleanupHandler (cleanupHandler st)).shutdownNotices = st.shutdownNotices + 1 ∧
    (cleanupHandler (cleanupHandler st)).deregisters = st.deregisters + 1 := by
  simp [cleanupHandler, shutdownSequence, h]

/-- C6 witness: the double signal on the freshly armed state. -/
theorem c6_cleanup_idempotent_witness :
    (⟨false, 0, 0, 0, 0, 0⟩ : CoordState).cleanupDone = false ∧
    (cleanupHandler (cleanupHandler ⟨false, 0, 0, 0, 0, 0⟩) =
        cleanupHandler ⟨false, 0, 0, 0, 0, 0⟩ ∧
      (cleanupHandler (cleanupHandler ⟨false, 0, 0, 0, 0, 0⟩)).drains = 0 + 1 ∧
      (cleanupHandler (cleanupHandler ⟨false, 0, 0, 0, 0, 0⟩)).closes = 0 + 1 ∧
      (cleanupHandler (cleanupHandler ⟨false, 0, 0, 0, 0, 0⟩)).shutdownNotices = 0 + 1 ∧
      (cleanupHandler (cleanupHandler ⟨false, 0, 0, 0, 0, 0⟩)).deregisters = 0 + 1) :=
  ⟨rfl, c6_cleanup_idempotent ⟨false, 0, 0, 0, 0, 0⟩ rfl⟩

/-- C7: an error with no status field yields HTTP 500 with body
`{code: 500}` and a fatal log entry; one with status 404 yields
`{code: 404}` and no fatal log entry; every error whose status is not 404
is logged as fatal; and the response body always contains exactly the one
numeric code field (no stack trace). -/
theorem c7_terminal_error_handler (err : ErrObj) :
    (err.status = none → errorHandler err = ⟨500, [("code", 500)], true⟩) ∧
    (err.status = some 404 → errorHandler err = ⟨404, [("code", 404)], false⟩) ∧
    (err.status ≠ some 404 → (errorHandler err).loggedFatal = true) ∧
    (errorHandler err).bodyFields = [("code", (errorHandler err).httpStatus)] := by
  refine ⟨?_, ?_, ?_, rfl⟩
  · intro h
    simp [errorHandler, h, HTTP_NOT_FOUND, HTTP_SERVER_ERROR]
  · intro h
    simp [errorHandler, h, HTTP_NOT_FOUND, HTTP_SERVER_ERROR]
  · intro h
    cases hs : err.status with
    | none => simp [errorHandler, hs, HTTP_NOT_FOUND]
    | some n =>
        rw [hs] at h
        simp [errorHandler, hs, HTTP_NOT_FOUND]
        intro hn
        exact h (by rw [hn])

/-- C7 witness: the status-absent and status-404 clauses at concrete
errors. -/
theorem c7_terminal_error_handler_witness :
    errorHandler ⟨none, "Error", "trace"⟩ = ⟨500, [("code", 500)], true⟩ ∧
    errorHandler ⟨some 404, "Error", "trace"⟩ = ⟨404, [("code", 404)], false⟩ :=
  ⟨(c7_terminal_error_handler ⟨none, "Error", "trace"⟩).1 rfl,
   (c7_terminal_error_handler ⟨some 404, "Error", "trace"⟩).2.1 rfl⟩

/-- C9: with the iteration helper underscore unbound in the module scope,
every call of use raises a ReferenceError before registering anything, and
the registered-plugin list is left unchanged. -/
theorem c9_use_reference_error (registeredPlugins plugins : List PluginModel)
    (_h : plugins ≠ []) :
    use registeredPlugins plugins = (.refError "_", registeredPlugins) := rfl

/-- C9 witness: a concrete call with one plugin argument. -/
theorem c9_use_reference_error_witness :
    ([⟨1⟩] : List PluginModel) ≠ [] ∧
    use [] [⟨1⟩] = (.refError "_", []) :=
  ⟨by decide, c9_use_reference_error [] [⟨1⟩] (by decide)⟩

/-- C10: with the server still null, the promise returned by shutdown never
settles — the delayed close raises a TypeError outside the promise's
control flow — and neither a close nor a deregistration happens. -/
theorem c10_shutdown_null_server (hydraShutdown : Except String Unit) :
    (_shutdownRun none hydraShutdown).promiseState = .pending ∧
    (_shutdownRun none hydraShutdown).uncaughtException = some "TypeError" ∧
    (_shutdownRun none hydraShutdown).closeCalls = 0 ∧
    (_shutdownRun none hydraShutdown).deregisterCalls = 0 :=
  ⟨rfl, rfl, rfl, rfl⟩

lemma lookup_setAssoc_ne (fs : List (String × JVal)) (k k' : String) (v : JVal)
    (h : k' ≠ k) :
    (setAssoc fs k v).lookup k' = fs.lookup k' := by
  have hb : (k' == k) = false := by simp [h]
  induction fs with
  | nil => simp [setAssoc, List.lookup, hb]
  | cons p rest ih =>
      obtain ⟨pk, pv⟩ := p
      by_cases hp : pk = k
      · subst hp
        simp [setAssoc, List.lookup, hb]
      · have hpb : (pk == k) = false := by simp [hp]
        simp [setAssoc, List.lookup, hpb, ih]

lemma lookup_setAssoc_eq (fs : List (String × JVal)) (k : String) (v : JVal) :
    (setAssoc fs k v).lookup k = some v := by
  induction fs with
  | nil => simp [setAssoc, List.lookup]
  | cons p rest ih =>
      obtain ⟨pk, pv⟩ := p
      by_cases hp : pk = k
      · subst hp
        simp [setAssoc, List.lookup]
      · have hpb : (pk == k) = false := by simp [hp]
        have hkb : (k == pk) = false := by simp [Ne.symm hp]
        simp [setAssoc, List.lookup, hpb, hkb, ih]

lemma getField_setField_ne (o : JVal) (k k' : String) (v : JVal) (h : k' ≠ k) :
    getField (setField o k v) k' = getField o k' := by
  cases o with
  | jobj fs =>
      show (List.lookup k' (setAssoc fs k v)).getD .undefined = (List.lookup k' fs).getD .undefined
      rw [lookup_setAssoc_ne fs k k' v h]
  | undefined => rfl
  | jnull => rfl
  | jbool b => rfl
  | jnum n => rfl
  | jstr s => rfl
  | jfun => rfl

lemma getField_setField_eq (fs : List (String × JVal)) (k : String) (v : JVal) :
    getField (setField (.jobj fs) k v) k = v := by
  show (List.lookup k (setAssoc fs k v)).getD .undefined = v
  rw [lookup_setAssoc_eq fs k v]
  rfl

lemma obj_of_truthy_hydra (c : JVal)
    (ht : truthy (getField c "hydra") = true) : ∃ fs, c = .jobj fs := by
  cases c with
  | jobj fs => exact ⟨fs, rfl⟩
  | undefined => exact absurd ht Bool.false_ne_true
  | jnull => exact absurd ht Bool.false_ne_true
  | jbool b => exact absurd ht Bool.false_ne_true
  | jnum n => exact absurd ht Bool.false_ne_true
  | jstr s => exact absurd ht Bool.false_ne_true
  | jfun => exact absurd ht Bool.false_ne_true

lemma obj_of_truthy_redis (c : JVal)
    (ht : truthy (getField c "redis") = true) : ∃ fs, c = .jobj fs := by
  cases c with
  | jobj fs => exact ⟨fs, rfl⟩
  | undefined => exact absurd ht Bool.false_ne_true
  | jnull => exact absurd ht Bool.false_ne_true
  | jbool b => exact absurd ht Bool.false_ne_true
  | jnum n => exact absurd ht Bool.false_ne_true
  | jstr s => exact absurd ht Bool.false_ne_true
  | jfun => exact absurd ht Bool.false_ne_true

/-- The generic walk reduced to the three schema paths, valid whenever the
`hydra` member is present. -/
lemma validateConfig_as_paths (c : JVal)
    (hobj : isUndefined (getField c "hydra") = false) :
    validateConfig c = specMissingPaths c := by
  cases h1 : isUndefined (getField (getField c "hydra") "serviceName") <;>
  cases h2 : isUndefined (getField (getField c "hydra") "serviceDescription") <;>
  cases h3 : isUndefined (getField c "registerRoutesCallback") <;>
    simp +decide [validateConfig, requiredMembers, specMissingPaths, objKeys,
      typeofJ, hobj, h1, h2, h3]

/-- The in-place defaulting of serviceIP, servicePort and serviceType does
not change what the generic walk reports. -/
lemma validateConfig_setHydraDefaults (cfs hfs : List (String × JVal))
    (hget : getField (.jobj cfs) "hydra" = .jobj hfs) :
    validateConfig (setHydraDefaults (.jobj cfs)) = validateConfig (.jobj cfs) := by
  have keyH : isUndefined (getField (setHydraDefaults (.jobj cfs)) "hydra") = false := by
    simp only [setHydraDefaults]
    rw [getField_setField_eq, hget]
    rfl
  have keyNm : getField (getField (setHydraDefaults (.jobj cfs)) "hydra") "serviceName" =
      getField (getField (.jobj cfs) "hydra") "serviceName" := by
    simp only [setHydraDefaults]
    rw [getField_setField_eq,
      getField_setField_ne _ _ _ _ (show ("serviceName" : String) ≠ "serviceType" by decide),
      getField_setField_ne _ _ _ _ (show ("serviceName" : String) ≠ "servicePort" by decide),
      getField_setField_ne _ _ _ _ (show ("serviceName" : String) ≠ "serviceIP" by decide)]
  have keyDs : getField (getField (setHydraDefaults (.jobj cfs)) "hydra")
      "serviceDescription" =
      getField (getField (.jobj cfs) "hydra") "serviceDescription" := by
    simp only [setHydraDefaults]
    rw [getField_setField_eq,
      getField_setField_ne _ _ _ _
        (show ("serviceDescription" : String) ≠ "serviceType" by decide),
      getField_setField_ne _ _ _ _
        (show ("serviceDescription" : String) ≠ "servicePort" by decide),
      getField_setField_ne _ _ _ _
        (show ("serviceDescription" : String) ≠ "serviceIP" by decide)]
  have keyCb : getField (setHydraDefaults (.jobj cfs)) "registerRoutesCallback" =
      getField (.jobj cfs) "registerRoutesCallback" := by
    simp only [setHydraDefaults]
    exact getField_setField_ne _ _ _ _ (by decide)
  rw [validateConfig_as_paths _ keyH, validateConfig_as_paths _ (by rw [hget]; rfl)]
  simp only [specMissingPaths, keyNm, keyDs, keyCb]

lemma msg_ne_missingFields (m : String)
    (hm : m.data.get? 15 ≠ some 'f') (missingFields : List String) :
    m ≠ missingFieldsMsg missingFields := by
  intro h
  apply hm
  have hd := congrArg String.data h
  simp only [missingFieldsMsg, String.data_append] at hd
  rw [hd]
  rfl

/-- A config with the registry connection block but none of the three
required fields. -/
def cfgMissingAll : JVal :=
  .jobj [("hydra", .jobj [("redis", .jobj [])])]

/-- C2: for every config containing the registry connection block, the
generic walk returns exactly the dotted paths of the absent required
fields of the fixed schema (and the empty list when all are present), and
whenever that list is non-empty _init rejects with the single aggregated
space-joined message, having run only the field walk — no log
subscription and no discovery-client call. -/
theorem c2_validate_missing_paths (config : JVal)
    (hredis : truthy (getField (getField config "hydra") "redis") = true) :
    validateConfig config = specMissingPaths config ∧
    (specMissingPaths config = [] → validateConfig config = []) ∧
    (validateConfig config ≠ [] →
      (_init config).1 = .rejected (missingFieldsMsg (validateConfig config)) ∧
      (_init config).2 = [.fieldWalk]) := by
  obtain ⟨hfs, hH⟩ := obj_of_truthy_redis _ hredis
  have hhtr : truthy (getField config "hydra") = true := by rw [hH]; rfl
  obtain ⟨cfs, hC⟩ := obj_of_truthy_hydra _ hhtr
  subst hC
  have hmain : validateConfig (.jobj cfs) = specMissingPaths (.jobj cfs) :=
    validateConfig_as_paths _ (by rw [hH]; rfl)
  have hpres := validateConfig_setHydraDefaults cfs hfs hH
  refine ⟨hmain, fun h0 => by rw [hmain, h0], fun hne => ?_⟩
  have hlen : (validateConfig (setHydraDefaults (.jobj cfs))).length ≠ 0 := by
    rw [hpres]
    intro h0
    exact hne (List.length_eq_zero.mp h0)
  have hstep : _init (.jobj cfs) =
      (.rejected (missingFieldsMsg (validateConfig (setHydraDefaults (.jobj cfs)))),
       [InitEvent.fieldWalk]) := by
    simp [_init, hhtr, hredis, hlen]
  rw [hstep, hpres]
  exact ⟨rfl, rfl⟩

/-- C2 witness: the walk and the rejection on a concrete config missing
all three required fields. -/
theorem c2_validate_missing_paths_witness :
    validateConfig cfgMissingAll = specMissingPaths cfgMissingAll ∧
    ((_init cfgMissingAll).1 =
        .rejected (missingFieldsMsg (validateConfig cfgMissingAll)) ∧
      (_init cfgMissingAll).2 = [.fieldWalk]) :=
  ⟨(c2_validate_missing_paths cfgMissingAll (by decide)).1,
   (c2_validate_missing_paths cfgMissingAll (by decide)).2.2 (by decide)⟩

/-- C3: a config with a falsy hydra block is rejected with the dedicated
hydra-block message, and one with hydra present but a falsy redis block
with the dedicated redis-block message, in both cases with an empty event
list — before the generic field walk, the log subscription and the start
invocation — and the two messages are distinct from each other and from
every aggregated field-walk message. -/
theorem c3_registry_block_checks (config : JVal) :
    (truthy (getField config "hydra") = false →
      _init config = (.rejected hydraBlockMsg, [])) ∧
    (truthy (getField config "hydra") = true →
      truthy (getField (getField config "hydra") "redis") = false →
      _init config = (.rejected redisBlockMsg, [])) ∧
    hydraBlockMsg ≠ redisBlockMsg ∧
    (∀ missingFields, hydraBlockMsg ≠ missingFieldsMsg missingFields) ∧
    (∀ missingFields, redisBlockMsg ≠ missingFieldsMsg missingFields) := by
  refine ⟨?_, ?_, by decide, ?_, ?_⟩
  · intro h1
    simp [_init, h1]
  · intro h1 h2
    simp [_init, h1, h2]
  · exact fun mf => msg_ne_missingFields _ (by decide) mf
  · exact fun mf => msg_ne_missingFields _ (by decide) mf

/-- C3 witness: the two early rejections on concrete configs. -/
theorem c3_registry_block_checks_witness :
    _init (.jobj []) = (.rejected hydraBlockMsg, []) ∧
    _init (.jobj [("hydra", .jobj [])]) = (.rejected redisBlockMsg, []) :=
  ⟨(c3_registry_block_checks (.jobj [])).1 (by decide),
   (c3_registry_block_checks (.jobj [("hydra", .jobj [])])).2.1 (by decide) (by decide)⟩

/-- Membership in the derived flat route list, characterized: a string is
submitted exactly when it is `[method]base ++ leafPath` for some mounted
router, some stack entry with a concrete route, and some key of that
route's methods object. -/
lemma mem_routesListOf (routes : List (String × Router)) (x : String) :
    x ∈ routesListOf routes ↔
    ∃ base router, (base, router) ∈ routes ∧
      ∃ layer ∈ router.stack, ∃ ri, layer.route = some ri ∧
        ∃ m ∈ ri.methods, x = "[" ++ m ++ "]" ++ base ++ ri.path := by
  simp only [routesListOf, List.mem_flatMap]
  constructor
  · rintro ⟨rp, hrp, layer, hlayer, hx⟩
    obtain ⟨base, router⟩ := rp
    cases h : layer.route with
    | none =>
        rw [h] at hx
        simp at hx
    | some ri =>
        rw [h] at hx
        simp only [List.mem_map] at hx
        obtain ⟨m, hm, hxe⟩ := hx
        exact ⟨base, router, hrp, layer, hlayer, ri, h, m, hm, hxe.symm⟩
  · rintro ⟨base, router, hrp, layer, hlayer, ri, hri, m, hm, hxe⟩
    refine ⟨(base, router), hrp, layer, hlayer, ?_⟩
    rw [hri]
    simp only [List.mem_map]
    exact ⟨m, hm, hxe.symm⟩

/-- A router with one concrete GET route at leaf path /x, as the routing
library stores it (method key lowercase). -/
def sampleRouter : Router := ⟨[⟨some ⟨["get"], "/x"⟩⟩]⟩

/-- C5 counterexample: the public registerRoutes applied to the base
"/v1" and a router with one get route throws a TypeError — walking the
characters of the base string — instead of mounting and submitting;
moreover even the internal dict walk on the corresponding dict derives
"[get]/v1/x", not the uppercased "[GET]/v1/x" the claim states. -/
theorem c5_counterexample :
    registerRoutes "/v1" sampleRouter = .thrown "TypeError" ∧
    (_registerRoutes [("/v1", sampleRouter)]).1 = ["[get]/v1/x"] ∧
    ("[get]/v1/x" : String) ≠ "[GET]/v1/x" := by
  refine ⟨by decide, by decide, by decide⟩

/-- C5 (amended): the public registerRoutes forwards only the base string
to the single-parameter dict-walking routine and discards the router:
with a non-empty base it throws a TypeError before any mount or
submission, and with an empty base it mounts nothing and submits the
empty list; the internal routine on a dict mounts every router at its
base path in order and submits exactly the strings
`[method]base ++ leafPath` with the method name as the router stores it
(not uppercased), skipping stack entries with no concrete route. -/
theorem c5_register_routes (routeBaseUrl : String) (api : Router)
    (routes : List (String × Router)) (x : String) :
    (0 < routeBaseUrl.length → registerRoutes routeBaseUrl api = .thrown "TypeError") ∧
    (routeBaseUrl.length = 0 → registerRoutes routeBaseUrl api = .completed [] []) ∧
    (_registerRoutes routes).2 = routes.map Prod.fst ∧
    (_registerRoutes routes).1 = routesListOf routes ∧
    (x ∈ routesListOf routes ↔
      ∃ base router, (base, router) ∈ routes ∧
        ∃ layer ∈ router.stack, ∃ ri, layer.route = some ri ∧
          ∃ m ∈ ri.methods, x = "[" ++ m ++ "]" ++ base ++ ri.path) := by
  refine ⟨?_, ?_, rfl, rfl, mem_routesListOf routes x⟩
  · intro hlen
    obtain ⟨n, hn⟩ : ∃ n, routeBaseUrl.length = n + 1 :=
      ⟨routeBaseUrl.length - 1, (Nat.succ_pred_eq_of_pos hlen).symm⟩
    obtain ⟨c, cs, hdata⟩ : ∃ c cs, routeBaseUrl.data = c :: cs := by
      cases hd : routeBaseUrl.data with
      | nil =>
          exfalso
          have h0 : routeBaseUrl.length = 0 := by
            simp [String.length, hd]
          omega
      | cons c cs => exact ⟨c, cs, rfl⟩
    show _registerRoutesOnString routeBaseUrl = _
    have hkeys : objKeys (.jstr routeBaseUrl) =
        "0" :: ((List.range n).map Nat.succ).map toString := by
      show (List.range routeBaseUrl.length).map toString = _
      rw [hn, List.range_succ_eq_map]
      rfl
    have hchar : getField (.jstr routeBaseUrl) "0" = .jstr (String.singleton c) := by
      simp only [getField]
      rw [if_neg (by decide : ¬ (("0" == "length") = true)), hdata]
      rfl
    unfold _registerRoutesOnString
    simp only [hkeys]
    rw [hchar]
    rfl
  · intro hlen
    show _registerRoutesOnString routeBaseUrl = _
    have hkeys : objKeys (.jstr routeBaseUrl) = [] := by
      show (List.range routeBaseUrl.length).map toString = _
      rw [hlen]
      rfl
    unfold _registerRoutesOnString
    simp only [hkeys]

/-- C5 witness: the non-empty-base clause at a concrete call. -/
theorem c5_register_routes_witness :
    registerRoutes "/v1" sampleRouter = .thrown "TypeError" ∧
    registerRoutes "" sampleRouter = .completed [] [] :=
  ⟨(c5_register_routes "/v1" sampleRouter [] "").1 (by decide),
   (c5_register_routes "" sampleRouter [] "").2.1 (by decide)⟩

/-- A one-config heap whose live config at address 0 points at the hydra
block at address 0. -/
def heapSample : ConfigHeap :=
  { configs := [⟨"1.0", 0⟩], hydras := [⟨"svc", "desc"⟩] }

/-- C8 counterexample: mutating the nested hydra block through the value
returned by getRuntimeConfig changes the serviceName the live
configuration reads (from "svc" to "evil"), refuting the claim that no
mutation of the returned value, including nested blocks, affects the live
configuration. -/
theorem c8_counterexample :
    readHydraName heapSample 0 = "svc" ∧
    readHydraName
      (setHydraNameThrough (getRuntimeConfig heapSample 0).1
        (getRuntimeConfig heapSample 0).2 "evil") 0 = "evil" ∧
    ("evil" : String) ≠ "svc" :=
  ⟨rfl, rfl, by decide⟩

/-- C8 (amended): getRuntimeConfig allocates a fresh top-level object, so
a top-level write through the copy leaves the live configuration's reads
unchanged; but the nested hydra block is shared by reference, so a nested
write through the copy changes what the live configuration reads. -/
theorem c8_runtime_config_shallow_copy (h : ConfigHeap) (live : Nat)
    (hlive : live < h.configs.length)
    (hhy : (heapGet h.configs live default).hydraRef < h.hydras.length) :
    (getRuntimeConfig h live).2 ≠ live ∧
    (∀ v, readVersion
        (setVersionAt (getRuntimeConfig h live).1 (getRuntimeConfig h live).2 v) live =
        readVersion h live) ∧
    (∀ v, readHydraName
        (setHydraNameThrough (getRuntimeConfig h live).1 (getRuntimeConfig h live).2 v)
        live = v) := by
  have hcopyaddr : (getRuntimeConfig h live).2 = h.configs.length := rfl
  have hc1 : (getRuntimeConfig h live).1.configs = h.configs ++ [heapGet h.configs live default] := rfl
  have hlive' : heapGet (h.configs ++ [heapGet h.configs live default]) live default =
      heapGet h.configs live default := by
    unfold heapGet
    rw [List.get?_append hlive]
  refine ⟨?_, ?_, ?_⟩
  · rw [hcopyaddr]
    exact Nat.ne_of_gt hlive
  · intro v
    unfold readVersion setVersionAt
    simp only [hcopyaddr, hc1]
    have hne : h.configs.length ≠ live := Nat.ne_of_gt hlive
    unfold heapGet
    rw [List.get?_set_ne _ _ hne, ← heapGet, ← heapGet, hlive']
  · intro v
    unfold readHydraName setHydraNameThrough
    simp only [hcopyaddr, hc1]
    have hcopyget : heapGet (h.configs ++ [heapGet h.configs live default])
        h.configs.length default = heapGet h.configs live default := by
      unfold heapGet
      rw [List.get?_concat_length]
      rfl
    have hhyd : (getRuntimeConfig h live).1.hydras = h.hydras := rfl
    rw [hcopyget, hlive', hhyd]
    have hhy' : ((h.configs.get? live).getD default).hydraRef < h.hydras.length := hhy
    unfold heapGet
    rw [List.get?_set_eq_of_lt _ hhy']
    rfl

/-- C8 witness: the amended clauses on the concrete one-config heap. -/
theorem c8_runtime_config_shallow_copy_witness :
    (getRuntimeConfig heapSample 0).2 ≠ 0 ∧
    readVersion
      (setVersionAt (getRuntimeConfig heapSample 0).1
        (getRuntimeConfig heapSample 0).2 "2.0") 0 = readVersion heapSample 0 ∧
    readHydraName
      (setHydraNameThrough (getRuntimeConfig heapSample 0).1
        (getRuntimeConfig heapSample 0).2 "evil") 0 = "evil" :=
  ⟨(c8_runtime_config_shallow_copy heapSample 0 (by decide) (by decide)).1,
   (c8_runtime_config_shallow_copy heapSample 0 (by decide) (by decide)).2.1 "2.0",
   (c8_runtime_config_shallow_copy heapSample 0 (by decide) (by decide)).2.2 "evil"⟩

end HydraExpress
